import Mathlib

/-!
Verification of the hospital-iso-vista repository: a shallow embedding of its
domain model (`src/types/hospital.ts`), the mock data generator and the two
pure status updaters (`src/pages/Index.tsx`, `hospitalDataService`), the
visibility filter, the bed status indicator, and the pointer-interaction and
resource-cleanup behaviour of the 3D canvas (`ThreeJSCanvas`,
`useMouseInteraction.ts`, `useSceneSetup.ts`).

JavaScript numbers are modelled as `Rat`, strings as `String`, `undefined` /
missing optional fields as `Option`, and `Math.random()` draws as values
supplied by an explicit oracle.
-/

namespace HospitalIsoVista

/-! ## Domain model (src/types/hospital.ts) -/

inductive BedStatus
  | available
  | occupied
  | cleaning
deriving DecidableEq, Repr

inductive PatientStatus
  | critical
  | stable
  | discharged
deriving DecidableEq, Repr

inductive FloorType
  | ICU
  | Emergency
  | General
  | Surgery
deriving DecidableEq, Repr

inductive StaffType
  | Doctor
  | Nurse
  | Technician
deriving DecidableEq, Repr

structure Position where
  x : Rat
  y : Rat
  z : Rat
deriving DecidableEq, Repr

structure Bed where
  id : String
  position : Position
  patientId : Option String := none
  status : BedStatus
  floor : FloorType
  room : String
deriving DecidableEq, Repr

/-- The TypeScript `Patient.admissionType` is declared as
`AdmissionType = 'ICU' | 'General' | 'Emergency'`, but the generator performs
the unchecked cast `floorType as AdmissionType`, so at runtime the field holds
any of the four floor types; we model the runtime truth. -/
structure Patient where
  id : String
  name : String
  status : PatientStatus
  assignedStaffIds : List String
  admissionType : FloorType
  bedId : Option String := none
  notes : Option String := none
deriving DecidableEq, Repr

structure Staff where
  id : String
  name : String
  type : StaffType
  assignedPatientIds : List String
  floor : FloorType
deriving DecidableEq, Repr

structure Floor where
  id : String
  type : FloorType
  name : String
  level : Nat
  beds : List String
deriving DecidableEq, Repr

structure Hospital where
  floors : List Floor
  beds : List Bed
  patients : List Patient
  staff : List Staff
deriving DecidableEq, Repr

/-! ## Pure status updaters (src/pages/Index.tsx, lines 276-297) -/

/-- Source `updateBedStatus(hospital, bedId, newStatus)`:
`hospital.beds.map(bed => bed.id === bedId ? { ...bed, status: newStatus } : bed)`
wrapped back into a new Hospital object. -/
def updateBedStatus (hospital : Hospital) (bedId : String) (newStatus : BedStatus) : Hospital :=
  { hospital with
    beds := hospital.beds.map fun bed =>
      if bed.id = bedId then { bed with status := newStatus } else bed }

/-- Source `updatePatientStatus(hospital, patientId, newStatus)`:
`hospital.patients.map(p => p.id === patientId ? { ...p, status: newStatus } : p)`
wrapped back into a new Hospital object. -/
def updatePatientStatus (hospital : Hospital) (patientId : String) (newStatus : PatientStatus) :
    Hospital :=
  { hospital with
    patients := hospital.patients.map fun patient =>
      if patient.id = patientId then { patient with status := newStatus } else patient }

/-! ## Helper lemmas about mapped updates -/

theorem map_eq_self_of_fixed {α : Type} (l : List α) (f : α → α) (h : ∀ a ∈ l, f a = a) :
    l.map f = l := by
  induction l with
  | nil => rfl
  | cons a l ih =>
      simp only [List.map_cons, List.cons.injEq]
      exact ⟨h a (List.mem_cons_self a l), ih fun a ha => h a (List.mem_cons_of_mem _ ha)⟩

/-- Pointwise description of one bed after `updateBedStatus`: every field except
`status` is preserved, and `status` is replaced exactly on an id match. -/
def BedPatched (bedId : String) (newStatus : BedStatus) (b b' : Bed) : Prop :=
  b'.id = b.id ∧ b'.position = b.position ∧ b'.patientId = b.patientId ∧
    b'.floor = b.floor ∧ b'.room = b.room ∧
    (b.id ≠ bedId → b'.status = b.status) ∧ (b.id = bedId → b'.status = newStatus)

/-- Pointwise description of one patient after `updatePatientStatus`. -/
def PatientPatched (patientId : String) (newStatus : PatientStatus) (p p' : Patient) : Prop :=
  p'.id = p.id ∧ p'.name = p.name ∧ p'.assignedStaffIds = p.assignedStaffIds ∧
    p'.admissionType = p.admissionType ∧ p'.bedId = p.bedId ∧ p'.notes = p.notes ∧
    (p.id ≠ patientId → p'.status = p.status) ∧ (p.id = patientId → p'.status = newStatus)

theorem updateBedStatus_forall₂ (h : Hospital) (bedId : String) (s : BedStatus) :
    List.Forall₂ (BedPatched bedId s) h.beds (updateBedStatus h bedId s).beds := by
  unfold updateBedStatus
  simp only [List.forall₂_map_right_iff]
  refine List.forall₂_same.2 fun b _ => ?_
  by_cases hid : b.id = bedId <;>
    simp [BedPatched, hid]

theorem updatePatientStatus_forall₂ (h : Hospital) (patientId : String) (s : PatientStatus) :
    List.Forall₂ (PatientPatched patientId s) h.patients
      (updatePatientStatus h patientId s).patients := by
  unfold updatePatientStatus
  simp only [List.forall₂_map_right_iff]
  refine List.forall₂_same.2 fun p _ => ?_
  by_cases hid : p.id = patientId <;>
    simp [PatientPatched, hid]

/-- C2 — For every Hospital `h`, bed id and status `s`, `updateBedStatus h id s`
changes at most the `status` field of the beds whose id matches, preserves the
list length and every other field, and leaves `floors`, `patients` and `staff`
untouched; `updatePatientStatus` has the symmetric property for patients; and
applying `updateBedStatus` then `updatePatientStatus` preserves `beds.length`
and `patients.length`, with at most those two status fields altered.  (The
embedding is a pure function of immutable values, so non-mutation of the input
`h` holds by construction.) -/
theorem claim_update_frame (h : Hospital) (bedId : String) (s : BedStatus)
    (patientId : String) (ps : PatientStatus) :
    ((updateBedStatus h bedId s).floors = h.floors ∧
      (updateBedStatus h bedId s).patients = h.patients ∧
      (updateBedStatus h bedId s).staff = h.staff ∧
      (updateBedStatus h bedId s).beds.length = h.beds.length ∧
      List.Forall₂ (BedPatched bedId s) h.beds (updateBedStatus h bedId s).beds) ∧
    ((updatePatientStatus h patientId ps).floors = h.floors ∧
      (updatePatientStatus h patientId ps).beds = h.beds ∧
      (updatePatientStatus h patientId ps).staff = h.staff ∧
      (updatePatientStatus h patientId ps).patients.length = h.patients.length ∧
      List.Forall₂ (PatientPatched patientId ps) h.patients
        (updatePatientStatus h patientId ps).patients) ∧
    ((updatePatientStatus (updateBedStatus h bedId s) patientId ps).beds.length
        = h.beds.length ∧
      (updatePatientStatus (updateBedStatus h bedId s) patientId ps).patients.length
        = h.patients.length ∧
      List.Forall₂ (BedPatched bedId s) h.beds
        (updatePatientStatus (updateBedStatus h bedId s) patientId ps).beds ∧
      List.Forall₂ (PatientPatched patientId ps) h.patients
        (updatePatientStatus (updateBedStatus h bedId s) patientId ps).patients) := by
  refine ⟨⟨rfl, rfl, rfl, by simp [updateBedStatus], updateBedStatus_forall₂ h bedId s⟩,
    ⟨rfl, rfl, rfl, by simp [updatePatientStatus], updatePatientStatus_forall₂ h patientId ps⟩,
    by simp [updateBedStatus, updatePatientStatus],
    by simp [updateBedStatus, updatePatientStatus],
    updateBedStatus_forall₂ h bedId s,
    updatePatientStatus_forall₂ (updateBedStatus h bedId s) patientId ps⟩

/-- C3 — `updateBedStatus` and `updatePatientStatus` are idempotent: applying
either twice with the same arguments structurally equals applying it once. -/
theorem claim_update_idempotent (h : Hospital) (bedId : String) (s : BedStatus)
    (patientId : String) (ps : PatientStatus) :
    updateBedStatus (updateBedStatus h bedId s) bedId s = updateBedStatus h bedId s ∧
    updatePatientStatus (updatePatientStatus h patientId ps) patientId ps
      = updatePatientStatus h patientId ps := by
  constructor
  · show Hospital.mk _ _ _ _ = Hospital.mk _ _ _ _
    simp only [updateBedStatus, List.map_map, Hospital.mk.injEq, true_and, and_true]
    refine List.map_congr_left fun b _ => ?_
    by_cases hid : b.id = bedId <;> simp [Function.comp, hid]
  · show Hospital.mk _ _ _ _ = Hospital.mk _ _ _ _
    simp only [updatePatientStatus, List.map_map, Hospital.mk.injEq, true_and, and_true]
    refine List.map_congr_left fun p _ => ?_
    by_cases hid : p.id = patientId <;> simp [Function.comp, hid]

/-- C8 — When no bed (respectively no patient) carries the given id, the update
functions are silent no-ops: the returned Hospital equals the input
structurally, and no error is possible (the functions are total). -/
theorem claim_update_unknown_id_noop (h : Hospital) (bedId : String) (s : BedStatus)
    (patientId : String) (ps : PatientStatus) :
    ((∀ b ∈ h.beds, b.id ≠ bedId) → updateBedStatus h bedId s = h) ∧
    ((∀ p ∈ h.patients, p.id ≠ patientId) → updatePatientStatus h patientId ps = h) := by
  constructor
  · intro hb
    show Hospital.mk _ _ _ _ = h
    rw [show h = Hospital.mk h.floors h.beds h.patients h.staff from rfl]
    simp only [Hospital.mk.injEq, true_and, and_true]
    exact map_eq_self_of_fixed _ _ fun b hmem => by simp [hb b hmem]
  · intro hp
    show Hospital.mk _ _ _ _ = h
    rw [show h = Hospital.mk h.floors h.beds h.patients h.staff from rfl]
    simp only [Hospital.mk.injEq, true_and, and_true]
    exact map_eq_self_of_fixed _ _ fun p hmem => by simp [hp p hmem]

/-- A small concrete Floor used to instantiate theorems with hypotheses. -/
def exampleFloor : Floor :=
  { id := "floor-0", type := .Emergency, name := "Emergency Floor",
    level := 0, beds := ["bed-0-0", "bed-0-1"] }

/-- A small concrete Hospital used to instantiate theorems with hypotheses. -/
def exampleHospital : Hospital :=
  { floors := [exampleFloor]
    beds := [{ id := "bed-0-0", position := ⟨0, 0, 0⟩, patientId := some "patient-0-0",
               status := .occupied, floor := .Emergency, room := "Room 1" },
             { id := "bed-0-1", position := ⟨3, 0, 0⟩, patientId := none,
               status := .available, floor := .Emergency, room := "Room 1" }]
    patients := [{ id := "patient-0-0", name := "Patient A B", status := .stable,
                   assignedStaffIds := ["staff-0"], admissionType := .Emergency,
                   bedId := some "bed-0-0" }]
    staff := [{ id := "staff-0", name := "Doctor A", type := .Doctor,
                assignedPatientIds := ["patient-0-0"], floor := .Emergency }] }

/-- Witness for C8 at a concrete input: `"no-such-id"` matches no bed and no
patient of `exampleHospital`, and both updates return the input unchanged. -/
theorem claim_update_unknown_id_noop_witness :
    updateBedStatus exampleHospital "no-such-id" .cleaning = exampleHospital ∧
    updatePatientStatus exampleHospital "no-such-id" .discharged = exampleHospital :=
  ⟨(claim_update_unknown_id_noop exampleHospital "no-such-id" .cleaning
      "no-such-id" .discharged).1 (by decide),
   (claim_update_unknown_id_noop exampleHospital "no-such-id" .cleaning
      "no-such-id" .discharged).2 (by decide)⟩

/-- Witness for C2 at a concrete input: projections of `claim_update_frame`
instantiated on `exampleHospital`. -/
theorem claim_update_frame_witness :
    (updateBedStatus exampleHospital "bed-0-0" .cleaning).floors = exampleHospital.floors ∧
    (updateBedStatus exampleHospital "bed-0-0" .cleaning).beds.length
      = exampleHospital.beds.length ∧
    List.Forall₂ (BedPatched "bed-0-0" .cleaning) exampleHospital.beds
      (updateBedStatus exampleHospital "bed-0-0" .cleaning).beds ∧
    (updatePatientStatus (updateBedStatus exampleHospital "bed-0-0" .cleaning)
        "patient-0-0" .discharged).patients.length = exampleHospital.patients.length :=
  ⟨(claim_update_frame exampleHospital "bed-0-0" .cleaning "patient-0-0" .discharged).1.1,
   (claim_update_frame exampleHospital "bed-0-0" .cleaning
      "patient-0-0" .discharged).1.2.2.2.1,
   (claim_update_frame exampleHospital "bed-0-0" .cleaning
      "patient-0-0" .discharged).1.2.2.2.2,
   (claim_update_frame exampleHospital "bed-0-0" .cleaning
      "patient-0-0" .discharged).2.2.2.1⟩

/-! ## Visibility filter (src/unnamed/part_001, ThreeJSCanvas useMemo, lines 29-58) -/

/-- JavaScript truthiness of an optional string (`if (selectedFloor)`,
`filter(bed => bed.patientId)`): `null`/`undefined` and `""` are falsy. -/
def jsTruthy : Option String → Bool
  | none => false
  | some s => s ≠ ""

structure VisibleView where
  visibleFloors : List Floor
  visibleBeds : List Bed
  visiblePatients : List Patient
deriving DecidableEq, Repr

/-- The `useMemo` body of `ThreeJSCanvas` (part_001): if `selectedFloor` is
truthy and `floors.find` locates it, the visible floors are `[currentFloor]`,
the visible beds are the beds whose `floor` equals the current floor's type,
and the visible patients are the patients whose id occurs among the truthy
`patientId`s of those beds; otherwise all floors, beds and patients. -/
def computeVisible (hospital : Hospital) (selectedFloor : Option String) : VisibleView :=
  if jsTruthy selectedFloor then
    match hospital.floors.find? (fun f => f.id == selectedFloor.getD "") with
    | some currentFloor =>
        let beds := hospital.beds.filter fun bed => bed.floor == currentFloor.type
        let bedPatientIds := (beds.filter fun bed => jsTruthy bed.patientId).map
          fun bed => bed.patientId
        let patients := hospital.patients.filter fun patient =>
          bedPatientIds.contains (some patient.id)
        { visibleFloors := [currentFloor], visibleBeds := beds, visiblePatients := patients }
    | none =>
        { visibleFloors := hospital.floors, visibleBeds := hospital.beds,
          visiblePatients := hospital.patients }
  else
    { visibleFloors := hospital.floors, visibleBeds := hospital.beds,
      visiblePatients := hospital.patients }

/-- C4 — When `selectedFloor` names an existing floor `cf` (a non-empty id
found by `floors.find`), the visible floors are exactly `[cf]`, the visible
beds are exactly the beds whose floor type equals `cf.type`, and the visible
patients are exactly the patients occupying a visible bed (some visible bed's
`patientId` names them); with no selection all floors, beds and patients are
visible; and the filter is a pure function, so two calls with identical
arguments yield identical results.  The hypothesis that patient ids are
non-empty reflects the app's id scheme (`patient-<floor>-<bed>`); it rules out
only the JS-truthiness edge case of a patient with id `""`. -/
theorem claim_visibility_filter (h : Hospital) (sf : String) (cf : Floor)
    (hsf : sf ≠ "")
    (hfind : h.floors.find? (fun f => f.id == sf) = some cf)
    (hids : ∀ p ∈ h.patients, p.id ≠ "") :
    (computeVisible h (some sf)).visibleFloors = [cf] ∧
    (∀ b, b ∈ (computeVisible h (some sf)).visibleBeds ↔
        b ∈ h.beds ∧ b.floor = cf.type) ∧
    (∀ p, p ∈ (computeVisible h (some sf)).visiblePatients ↔
        p ∈ h.patients ∧
          ∃ b ∈ (computeVisible h (some sf)).visibleBeds, b.patientId = some p.id) ∧
    computeVisible h none = ⟨h.floors, h.beds, h.patients⟩ ∧
    computeVisible h (some sf) = computeVisible h (some sf) := by
  have htr : jsTruthy (some sf) = true := by simp [jsTruthy, hsf]
  have hview : computeVisible h (some sf) =
      { visibleFloors := [cf],
        visibleBeds := h.beds.filter fun bed => bed.floor == cf.type,
        visiblePatients := h.patients.filter fun patient =>
          (((h.beds.filter fun bed => bed.floor == cf.type).filter
              fun bed => jsTruthy bed.patientId).map
            fun bed => bed.patientId).contains (some patient.id) } := by
    unfold computeVisible
    rw [htr]
    simp only [Option.getD_some, if_true]
    rw [hfind]
  refine ⟨by rw [hview], fun b => ?_, fun p => ?_, rfl, rfl⟩
  · rw [hview]
    simp [List.mem_filter]
  · rw [hview]
    simp only [List.mem_filter, List.contains_eq_any_beq, List.any_eq_true, List.mem_map,
      List.mem_filter, beq_iff_eq, decide_eq_true_eq]
    constructor
    · rintro ⟨hp, x, ⟨b, ⟨hb, hfl⟩, rfl⟩, hx⟩
      exact ⟨hp, b, by simp [List.mem_filter, hb, hfl], hx.symm⟩
    · rintro ⟨hp, b, hb, hpid⟩
      refine ⟨hp, b.patientId, ⟨b, ⟨hb, ?_⟩, rfl⟩, by rw [hpid]⟩
      rw [hpid]
      simpa [jsTruthy] using hids p hp

/-- Witness for C4 at a concrete input: selecting `"floor-0"` in
`exampleHospital` shows exactly that floor, and membership of the two concrete
beds and the concrete patient follows the characterization. -/
theorem claim_visibility_filter_witness :
    (computeVisible exampleHospital (some "floor-0")).visibleFloors = [exampleFloor] ∧
    ((exampleHospital.beds.get ⟨0, by decide⟩) ∈
        (computeVisible exampleHospital (some "floor-0")).visibleBeds ↔
      (exampleHospital.beds.get ⟨0, by decide⟩) ∈ exampleHospital.beds ∧
        (exampleHospital.beds.get ⟨0, by decide⟩).floor = exampleFloor.type) ∧
    ((exampleHospital.patients.get ⟨0, by decide⟩) ∈
        (computeVisible exampleHospital (some "floor-0")).visiblePatients ↔
      (exampleHospital.patients.get ⟨0, by decide⟩) ∈ exampleHospital.patients ∧
        ∃ b ∈ (computeVisible exampleHospital (some "floor-0")).visibleBeds,
          b.patientId = some (exampleHospital.patients.get ⟨0, by decide⟩).id) ∧
    computeVisible exampleHospital none =
      ⟨exampleHospital.floors, exampleHospital.beds, exampleHospital.patients⟩ := by
  have T := claim_visibility_filter exampleHospital "floor-0" exampleFloor
    (by decide) (by decide) (by decide)
  exact ⟨T.1, T.2.1 _, T.2.2.1 _, T.2.2.2.1⟩

/-- C10 — If `selectedFloor` is non-null but matches no floor id, the filter
falls back to the full view: all floors, beds and patients are visible. -/
theorem claim_unknown_floor_full_view (h : Hospital) (sf : String)
    (hfind : h.floors.find? (fun f => f.id == sf) = none) :
    computeVisible h (some sf) = ⟨h.floors, h.beds, h.patients⟩ := by
  unfold computeVisible
  simp only [Option.getD_some]
  rw [hfind]
  split <;> rfl

/-- Witness for C10 at a concrete input: `"floor-9"` matches no floor of
`exampleHospital`, and the filter returns the full view. -/
theorem claim_unknown_floor_full_view_witness :
    computeVisible exampleHospital (some "floor-9") =
      ⟨exampleHospital.floors, exampleHospital.beds, exampleHospital.patients⟩ :=
  claim_unknown_floor_full_view exampleHospital "floor-9" (by decide)

/-! ## Bed status indicator (src/unnamed/part_001, lines 120-131, and the
ThreeJSCanvas.tsx revision's status-to-color table) -/

structure IndicatorSpec where
  color : Nat
  emissive : Nat
  emissiveIntensity : Rat
deriving DecidableEq, Repr

/-- The status-indicator mesh attached per bed by the part_001 revision:
`if (bed.status === 'cleaning' || bed.status === 'available')` a sphere with
`color`/`emissive` `0xfbbd23` for cleaning and `0x4ade80` for available is
added; beds with any other status (occupied) get no indicator at all. -/
def bedStatusIndicator (status : BedStatus) : Option IndicatorSpec :=
  if status = .cleaning ∨ status = .available then
    some { color := if status = .cleaning then 0xfbbd23 else 0x4ade80,
           emissive := if status = .cleaning then 0xfbbd23 else 0x4ade80,
           emissiveIntensity := mkRat 1 2 }
  else
    none

/-- The `statusIndicatorColor` switch of the full ThreeJSCanvas.tsx revision
(lines 1108-1121): every bed gets an indicator colored green / bright orange /
ocean blue by status. -/
def statusIndicatorColor (status : BedStatus) : Nat :=
  match status with
  | .available => 0x4ade80
  | .occupied => 0xF97316
  | .cleaning => 0x0EA5E9

/-- Counterexample to C6 as stated: in the cited part_001 revision a bed with
status `occupied` receives no status-indicator mesh at all (the claim requires
an orange one), and the indicator a `cleaning` bed receives is colored
`0xfbbd23` (amber), which is not the ocean-blue `0x0EA5E9` used by the
revisions that do implement the green/orange/blue table. -/
theorem claim_indicator_counterexample :
    bedStatusIndicator .occupied = none ∧
    (bedStatusIndicator .cleaning).map IndicatorSpec.color = some 0xfbbd23 ∧
    (0xfbbd23 : Nat) ≠ 0x0EA5E9 ∧ statusIndicatorColor .cleaning = 0x0EA5E9 := by
  refine ⟨rfl, rfl, by decide, rfl⟩

/-- C6 amended — In the part_001 revision, a separate status-indicator mesh is
attached only to `available` and `cleaning` beds, its color and emissive
determined solely by the status: available→green `0x4ade80`, cleaning→amber
`0xfbbd23`, both with emissive intensity 0.5; `occupied` beds get no
indicator.  The full ThreeJSCanvas.tsx revision instead colors an indicator
for every bed by the table available→green `0x4ade80`, occupied→orange
`0xF97316`, cleaning→blue `0x0EA5E9`. -/
theorem claim_indicator_amended :
    bedStatusIndicator .available =
      some { color := 0x4ade80, emissive := 0x4ade80, emissiveIntensity := mkRat 1 2 } ∧
    bedStatusIndicator .cleaning =
      some { color := 0xfbbd23, emissive := 0xfbbd23, emissiveIntensity := mkRat 1 2 } ∧
    bedStatusIndicator .occupied = none ∧
    statusIndicatorColor .available = 0x4ade80 ∧
    statusIndicatorColor .occupied = 0xF97316 ∧
    statusIndicatorColor .cleaning = 0x0EA5E9 :=
  ⟨rfl, rfl, rfl, rfl, rfl, rfl⟩

/-! ## Pointer interaction (useMouseInteraction.ts, handleMouseMove lines 21-58)

The raycast outcome of a pointer-move is abstracted to: the id of the first
tagged ancestor of the nearest intersection (`hitTagged`), a hit whose
ancestor walk finds no id (`hitUntagged`), or no intersection at all (`miss`).
The mutable state acted on is each interactive object's transform (`scale.set`
sets a uniform scale; `position.y` is translated) plus the document cursor. -/

inductive ObjKind
  | bed
  | patient
deriving DecidableEq, Repr

structure SceneObj where
  kind : ObjKind
  scale : Rat
  posY : Rat
deriving DecidableEq, Repr

inductive Cursor
  | auto
  | pointer
deriving DecidableEq, Repr

structure InteractionState where
  objects : List (String × SceneObj)
  cursor : Cursor
deriving DecidableEq, Repr

inductive MoveEvent
  | hitTagged (id : String)
  | hitUntagged
  | miss
deriving DecidableEq, Repr

/-- One `handleMouseMove` call.  On a tagged hit: cursor becomes pointer, and
the hit object is scaled to 1.05 (bed) or raised by 0.1 (patient).  On an
untagged hit nothing changes.  On a miss: cursor resets and EVERY interactive
object is visited — beds are scaled back to 1, but each patient's `position.y`
is decremented by 0.1 unconditionally (`obj.position.y -= 0.1`), whether or
not it was ever hovered. -/
def handleMouseMove (st : InteractionState) (e : MoveEvent) : InteractionState :=
  match e with
  | .hitTagged id =>
      { st with
        cursor := .pointer,
        objects := st.objects.map fun obj =>
          if obj.1 = id then
            match obj.2.kind with
            | .bed => (obj.1, { obj.2 with scale := mkRat 105 100 })
            | .patient => (obj.1, { obj.2 with posY := obj.2.posY + mkRat 1 10 })
          else obj }
  | .hitUntagged => st
  | .miss =>
      { st with
        cursor := .auto,
        objects := st.objects.map fun obj =>
          match obj.2.kind with
          | .bed => (obj.1, { obj.2 with scale := 1 })
          | .patient => (obj.1, { obj.2 with posY := obj.2.posY - mkRat 1 10 }) }

/-- A sequence of pointer-moves. -/
def handleMouseMoves (st : InteractionState) (es : List MoveEvent) : InteractionState :=
  es.foldl handleMouseMove st

/-- A one-patient scene in its initial transform (scale 1, resting height 0). -/
def examplePointerScene : InteractionState :=
  { objects := [("patient-0-0", { kind := .patient, scale := 1, posY := 0 })],
    cursor := .auto }

/-- C7 evaluated at the failing input: in `examplePointerScene` the single
patient has never been hovered, yet one missing pointer-move lowers it to
y = -0.1 and a second miss lowers it again to y = -0.2 — the miss branch does
not revert hover affordances, it unconditionally translates every patient
down, so a sequence of moves ending in a miss does not restore original
transforms. -/
theorem claim_pointer_miss_drifts_patients :
    (handleMouseMoves examplePointerScene [.miss]).objects
        = [("patient-0-0", { kind := .patient, scale := 1, posY := -mkRat 1 10 })] ∧
    (handleMouseMoves examplePointerScene [.miss, .miss]).objects
        = [("patient-0-0", { kind := .patient, scale := 1, posY := -mkRat 1 5 })] ∧
    handleMouseMoves examplePointerScene [.miss] ≠ examplePointerScene := by
  have h10 : (mkRat 1 10 : Rat) = (1 : ℚ)/10 := by
    rw [Rat.mkRat_eq_divInt, Rat.divInt_eq_div]
    norm_num
  have h5 : (mkRat 1 5 : Rat) = (1 : ℚ)/5 := by
    rw [Rat.mkRat_eq_divInt, Rat.divInt_eq_div]
    norm_num
  have h1 : (0 : Rat) - mkRat 1 10 = -mkRat 1 10 := by rw [zero_sub]
  have h2 : (0 : Rat) - mkRat 1 10 - mkRat 1 10 = -mkRat 1 5 := by
    rw [h10, h5]
    norm_num
  refine ⟨?_, ?_, ?_⟩
  · simp [handleMouseMoves, handleMouseMove, examplePointerScene, h1]
  · simp only [handleMouseMoves, List.foldl_cons, List.foldl_nil]
    rw [show handleMouseMove examplePointerScene .miss
        = { objects := [("patient-0-0",
              { kind := .patient, scale := 1, posY := (0:Rat) - mkRat 1 10 })],
            cursor := .auto }
      from by simp [handleMouseMove, examplePointerScene]]
    simp [handleMouseMove]
    rw [h10, h5]
    norm_num
  · intro hEq
    have hobj : (handleMouseMoves examplePointerScene [.miss]).objects
        = examplePointerScene.objects := by rw [hEq]
    rw [show (handleMouseMoves examplePointerScene [.miss]).objects
        = [("patient-0-0", { kind := .patient, scale := 1, posY := (0:Rat) - mkRat 1 10 })]
      from by simp [handleMouseMoves, handleMouseMove, examplePointerScene]] at hobj
    simp only [examplePointerScene, List.cons.injEq, Prod.mk.injEq, SceneObj.mk.injEq,
      and_true, true_and] at hobj
    have hne : (0 : Rat) - mkRat 1 10 ≠ 0 := by
      rw [h10]
      norm_num
    exact hne hobj

/-! ## GPU resource lifecycle (src/unnamed/part_001 effect + cleanup lines
182-194; useSceneSetup.ts cleanup lines 71-76)

Each `new THREE.<...>Geometry` / `new THREE.<...>Material` executed during the
mount effect is recorded as one tagged resource; `renderer.dispose()`,
`geometry.dispose()` and `material.dispose()` calls of the cleanup are
recorded as disposals.  `scene.remove(object)` detaches an object but does
not dispose anything. -/

inductive GpuResource
  | geometry (tag : String)
  | material (tag : String)
  | rendererHandle
deriving DecidableEq, Repr

/-- Geometries and materials created by `createHospitalBed`
(models/HospitalBed.ts): frame, mattress, pillow, rails, head/foot boards and
four legs. -/
def createHospitalBedResources (bedId : String) : List GpuResource :=
  [.material (bedId ++ "/frameMaterial"),
   .geometry (bedId ++ "/frame"),
   .geometry (bedId ++ "/mattress"), .material (bedId ++ "/mattress"),
   .geometry (bedId ++ "/pillow"), .material (bedId ++ "/pillow"),
   .material (bedId ++ "/railMaterial"),
   .geometry (bedId ++ "/leftRail"), .geometry (bedId ++ "/rightRail"),
   .material (bedId ++ "/headboardMaterial"),
   .geometry (bedId ++ "/headboard"), .geometry (bedId ++ "/footboard"),
   .geometry (bedId ++ "/leg0"), .material (bedId ++ "/leg0"),
   .geometry (bedId ++ "/leg1"), .material (bedId ++ "/leg1"),
   .geometry (bedId ++ "/leg2"), .material (bedId ++ "/leg2"),
   .geometry (bedId ++ "/leg3"), .material (bedId ++ "/leg3")]

/-- Geometries and materials created by `createPatient` (models/Patient.ts):
body material, torso, head, shared arm geometry, blanket, and for critical
patients an IV pole and bag. -/
def createPatientResources (patientId : String) (status : PatientStatus) : List GpuResource :=
  [.material (patientId ++ "/body"),
   .geometry (patientId ++ "/torso"), .geometry (patientId ++ "/head"),
   .geometry (patientId ++ "/arm"),
   .geometry (patientId ++ "/blanket"), .material (patientId ++ "/blanket")] ++
  (if status = .critical then
    [.geometry (patientId ++ "/ivPole"), .material (patientId ++ "/ivPole"),
     .geometry (patientId ++ "/ivBag"), .material (patientId ++ "/ivBag")]
  else [])

/-- The indicator sphere and its material, created for available/cleaning
beds (part_001 lines 120-131). -/
def indicatorResources (bed : Bed) : List GpuResource :=
  if bed.status = .cleaning ∨ bed.status = .available then
    [.geometry (bed.id ++ "/indicator"), .material (bed.id ++ "/indicator")]
  else []

/-- All GPU resources created by the part_001 mount effect: the renderer from
`setupScene`, the shared materials from `createMaterials`, the shared floor
slab `BoxGeometry`, per hidden floor a wall-outline edges geometry and line
material, per visible bed the bed model plus its status indicator, and per
visible patient lying in a visible bed the patient model. -/
def canvasCreatedResources (hospital : Hospital) (selectedFloor : Option String) :
    List GpuResource :=
  let view := computeVisible hospital selectedFloor
  [GpuResource.rendererHandle,
   GpuResource.material "materials/floor", GpuResource.material "materials/nonVisibleFloor",
   GpuResource.material "materials/wall", GpuResource.material "materials/nightstand",
   GpuResource.geometry "floorSlab"] ++
  (hospital.floors.filter fun floor =>
      !(view.visibleFloors.any fun f => f.id == floor.id) && jsTruthy selectedFloor).flatMap
    (fun floor => [GpuResource.geometry (floor.id ++ "/wallOutline"),
                   GpuResource.material (floor.id ++ "/wallOutline")]) ++
  view.visibleBeds.flatMap
    (fun bed => createHospitalBedResources bed.id ++ indicatorResources bed) ++
  (view.visiblePatients.filter fun patient =>
      patient.bedId.isSome &&
        view.visibleBeds.any fun b => some b.id == patient.bedId).flatMap
    (fun patient => createPatientResources patient.id patient.status)

/-- What the part_001 cleanup actually disposes: it removes the DOM listeners
and canvas, calls `renderer.dispose()`, and `scene.remove`s the interactive
objects — no `geometry.dispose()` or `material.dispose()` is ever called.
The `useSceneSetup` cleanup (lines 71-76) likewise disposes only the
renderer. -/
def canvasCleanupDisposed : List GpuResource :=
  [GpuResource.rendererHandle]

/-- C9 evaluated against the code: for every hospital and floor selection the
mount effect creates the floor-slab geometry (and, for instance, the frame
geometry of every visible bed), yet the cleanup disposes only the renderer
handle, so at least one created geometry is never disposed and repeated
mount/unmount cycles leak it. -/
theorem claim_cleanup_leaks_resources (hospital : Hospital) (selectedFloor : Option String) :
    GpuResource.geometry "floorSlab" ∈ canvasCreatedResources hospital selectedFloor ∧
    GpuResource.geometry "floorSlab" ∉ canvasCleanupDisposed ∧
    ∀ r ∈ canvasCleanupDisposed, r = GpuResource.rendererHandle := by
  refine ⟨?_, by decide, by decide⟩
  unfold canvasCreatedResources
  simp [List.mem_append]

/-- Witness for C9 at a concrete input: mounting `exampleHospital` with no
floor selected creates the floor-slab geometry, which the cleanup never
disposes. -/
theorem claim_cleanup_leaks_resources_witness :
    GpuResource.geometry "floorSlab" ∈ canvasCreatedResources exampleHospital none ∧
    GpuResource.geometry "floorSlab" ∉ canvasCleanupDisposed ∧
    GpuResource.rendererHandle = GpuResource.rendererHandle :=
  ⟨(claim_cleanup_leaks_resources exampleHospital none).1,
   (claim_cleanup_leaks_resources exampleHospital none).2.1,
   (claim_cleanup_leaks_resources exampleHospital none).2.2 _ (by decide)⟩

/-! ## Mock data generator (src/pages/Index.tsx `generateHospitalData`,
lines 136-273 of the hospitalDataService revision)

Every `Math.random()` draw is supplied by an explicit oracle, indexed by the
loop position that consumes it.  The `availableStaff.sort(() => 0.5 -
Math.random())` shuffle uses a JavaScript sort with an inconsistent random
comparator, whose result (and randomness consumption) is
implementation-defined; it is therefore modelled as an oracle-supplied
function of the filtered staff list, and `generateId`'s float-to-base-36
rendering as an oracle-supplied suffix string. -/

structure GenOracle where
  /-- The draw deciding bed `(floorIndex, j)`'s status. -/
  bedRand : Nat → Nat → Rat
  /-- The draw deciding the patient status for bed `(floorIndex, j)`. -/
  patRand : Nat → Nat → Rat
  /-- The two draws for the patient name letters. -/
  nameRand1 : Nat → Nat → Rat
  nameRand2 : Nat → Nat → Rat
  /-- The draw for `1 + Math.floor(Math.random() * 2)` assigned staff. -/
  countRand : Nat → Nat → Rat
  /-- The result of the random-comparator sort of the filtered staff list. -/
  staffShuffle : Nat → Nat → List Staff → List Staff
  /-- The base-36 suffix of `generateId()` for staff member `i`. -/
  staffIdSuffix : Nat → String

/-- Source `generateBedStatus`: occupied below 0.6, available below 0.85, else
cleaning. -/
def generateBedStatus (r : Rat) : BedStatus :=
  if r < mkRat 6 10 then .occupied
  else if r < mkRat 85 100 then .available
  else .cleaning

/-- Source `generatePatientStatus`: critical below 0.15, stable below 0.9, else
discharged. -/
def generatePatientStatus (r : Rat) : PatientStatus :=
  if r < mkRat 15 100 then .critical
  else if r < mkRat 9 10 then .stable
  else .discharged

/-- Source `generateFloorType(index)`. -/
def generateFloorType (index : Nat) : FloorType :=
  if index = 0 then .Emergency
  else if index = 1 then .ICU
  else if index = 2 then .Surgery
  else .General

def floorTypeName : FloorType → String
  | .ICU => "ICU"
  | .Emergency => "Emergency"
  | .General => "General"
  | .Surgery => "Surgery"

/-- Source `generatePosition(floorLevel, index, totalInRow = 5)`. -/
def generatePosition (floorLevel : Nat) (index : Nat) (totalInRow : Nat := 5) : Position :=
  { x := (index % totalInRow : Nat) * 3 - (totalInRow : Rat) * mkRat 3 2,
    y := (floorLevel : Rat) * 2,
    z := (index / totalInRow : Nat) * 3 - 5 }

def bedIdOf (floorIndex j : Nat) : String :=
  "bed-" ++ toString floorIndex ++ "-" ++ toString j

def patientIdOf (floorIndex j : Nat) : String :=
  "patient-" ++ toString floorIndex ++ "-" ++ toString j

def staffTypeAt (i : Nat) : StaffType :=
  if i < 10 then .Doctor else if i < 25 then .Nurse else .Technician

def staffTypeName : StaffType → String
  | .Doctor => "Doctor"
  | .Nurse => "Nurse"
  | .Technician => "Technician"

/-- One entry of the initial staff loop (`for (let i = 0; i < 30; i++)`). -/
def staffAt (o : GenOracle) (i : Nat) : Staff :=
  { id := "staff-" ++ o.staffIdSuffix i,
    name := staffTypeName (staffTypeAt i) ++ " " ++ (Char.ofNat (65 + i % 26)).toString,
    type := staffTypeAt i,
    assignedPatientIds := [],
    floor := generateFloorType (i / 8) }

def initialStaff (o : GenOracle) : List Staff :=
  (List.range 30).map (staffAt o)

/-- The status drawn for bed `(floorIndex, j)`. -/
def bedStatusAt (o : GenOracle) (floorIndex j : Nat) : BedStatus :=
  generateBedStatus (o.bedRand floorIndex j)

/-- The bed record pushed for loop position `(floorIndex, j)`; its
`patientId` is set exactly when the drawn status is occupied. -/
def bedAt (o : GenOracle) (floorIndex j : Nat) : Bed :=
  { id := bedIdOf floorIndex j,
    position := generatePosition floorIndex j,
    status := bedStatusAt o floorIndex j,
    floor := generateFloorType floorIndex,
    room := "Room " ++ toString (j / 5 + 1),
    patientId := if bedStatusAt o floorIndex j = .occupied
      then some (patientIdOf floorIndex j) else none }

/-- Source `availableStaff.sort(...).slice(0, 1 + floor(rand*2)).map(s => s.id)`
against the current staff list. -/
def assignedStaffAt (o : GenOracle) (floorIndex j : Nat) (staff : List Staff) : List String :=
  ((o.staffShuffle floorIndex j
      (staff.filter fun s => s.floor == generateFloorType floorIndex)).take
    (1 + ((o.countRand floorIndex j) * 2).floor.toNat)).map Staff.id

/-- Source `staff.find(s => s.id === staffId)` followed by a push onto its
`assignedPatientIds`: append to the first staff member with the given id. -/
def pushPatientTo : List Staff → String → String → List Staff
  | [], _, _ => []
  | s :: rest, staffId, patientId =>
      if s.id = staffId then
        { s with assignedPatientIds := s.assignedPatientIds ++ [patientId] } :: rest
      else s :: pushPatientTo rest staffId patientId

/-- The patient record created for an occupied bed at `(floorIndex, j)`,
against the current staff list. -/
def patientAt (o : GenOracle) (floorIndex j : Nat) (staff : List Staff) : Patient :=
  { id := patientIdOf floorIndex j,
    name := "Patient "
      ++ (Char.ofNat (65 + ((o.nameRand1 floorIndex j) * 26).floor.toNat)).toString
      ++ " "
      ++ (Char.ofNat (65 + ((o.nameRand2 floorIndex j) * 26).floor.toNat)).toString,
    status := generatePatientStatus (o.patRand floorIndex j),
    assignedStaffIds := assignedStaffAt o floorIndex j staff,
    admissionType := generateFloorType floorIndex,
    bedId := some (bedIdOf floorIndex j),
    notes := none }

/-- Mutable loop state of the generator: the three arrays pushed into. -/
structure GenAcc where
  beds : List Bed
  patients : List Patient
  staff : List Staff

/-- The body of the inner bed loop for `(floorIndex, j)`. -/
def processBed (o : GenOracle) (floorIndex : Nat) (acc : GenAcc) (j : Nat) : GenAcc :=
  if bedStatusAt o floorIndex j = .occupied then
    { beds := acc.beds ++ [bedAt o floorIndex j],
      patients := acc.patients ++ [patientAt o floorIndex j acc.staff],
      staff := (assignedStaffAt o floorIndex j acc.staff).foldl
        (fun st staffId => pushPatientTo st staffId (patientIdOf floorIndex j)) acc.staff }
  else
    { beds := acc.beds ++ [bedAt o floorIndex j],
      patients := acc.patients,
      staff := acc.staff }

/-- The body of the outer floor loop. -/
def processFloor (o : GenOracle) (acc : GenAcc) (floorIndex : Nat) : GenAcc :=
  (List.range 20).foldl (processBed o floorIndex) acc

/-- The floor record pushed for `floorIndex` (its `beds` collects the 20 bed
ids pushed during the inner loop). -/
def floorAt (floorIndex : Nat) : Floor :=
  { id := "floor-" ++ toString floorIndex,
    type := generateFloorType floorIndex,
    name := floorTypeName (generateFloorType floorIndex) ++ " Floor",
    level := floorIndex,
    beds := (List.range 20).map (bedIdOf floorIndex) }

/-- Source `generateHospitalData()`: 30 staff, then 4 floors of 20 beds each, with a
patient (and staff assignments) for every occupied bed. -/
def generateHospitalData (o : GenOracle) : Hospital :=
  let acc := (List.range 4).foldl (processFloor o) ⟨[], [], initialStaff o⟩
  { floors := (List.range 4).map floorAt,
    beds := acc.beds,
    patients := acc.patients,
    staff := acc.staff }

/-- The all-zero-draw oracle with the identity shuffle: every bed draws
status occupied, every patient draws status critical. -/
def constOracle : GenOracle :=
  { bedRand := fun _ _ => 0, patRand := fun _ _ => 0,
    nameRand1 := fun _ _ => 0, nameRand2 := fun _ _ => 0,
    countRand := fun _ _ => 0,
    staffShuffle := fun _ _ l => l,
    staffIdSuffix := fun i => toString i }

/-! ### Closed forms for the generator's bed and patient lists -/

/-- The projection of a patient relevant to the bed↔patient linkage. -/
def patientKey (p : Patient) : String × Option String := (p.id, p.bedId)

theorem patientKey_patientAt (o : GenOracle) (f j : Nat) (st : List Staff) :
    patientKey (patientAt o f j st) = (patientIdOf f j, some (bedIdOf f j)) := rfl

theorem processBed_beds (o : GenOracle) (f : Nat) (acc : GenAcc) (j : Nat) :
    (processBed o f acc j).beds = acc.beds ++ [bedAt o f j] := by
  unfold processBed
  split <;> rfl

theorem processBed_patients (o : GenOracle) (f : Nat) (acc : GenAcc) (j : Nat) :
    (processBed o f acc j).patients = acc.patients ++
      (if bedStatusAt o f j = .occupied then [patientAt o f j acc.staff] else []) := by
  unfold processBed
  split <;> simp_all

theorem foldl_processBed_beds (o : GenOracle) (f : Nat) (l : List Nat) (acc : GenAcc) :
    ((l.foldl (processBed o f) acc).beds) = acc.beds ++ l.map (bedAt o f) := by
  induction l generalizing acc with
  | nil => simp
  | cons j l ih =>
      rw [List.foldl_cons, ih, processBed_beds]
      simp

theorem foldl_processBed_patients (o : GenOracle) (f : Nat) (l : List Nat) (acc : GenAcc) :
    ((l.foldl (processBed o f) acc).patients).map patientKey
      = acc.patients.map patientKey ++ l.filterMap (fun j =>
          if bedStatusAt o f j = .occupied
          then some (patientIdOf f j, some (bedIdOf f j)) else none) := by
  induction l generalizing acc with
  | nil => simp
  | cons j l ih =>
      rw [List.foldl_cons, ih, processBed_patients, List.filterMap_cons]
      by_cases hc : bedStatusAt o f j = .occupied
      · simp [hc, patientKey_patientAt]
      · simp [hc]

theorem foldl_processFloor_beds (o : GenOracle) (l : List Nat) (acc : GenAcc) :
    ((l.foldl (processFloor o) acc).beds)
      = acc.beds ++ l.flatMap (fun f => (List.range 20).map (bedAt o f)) := by
  induction l generalizing acc with
  | nil => simp
  | cons f l ih =>
      rw [List.foldl_cons, ih, List.flatMap_cons]
      unfold processFloor
      rw [foldl_processBed_beds]
      simp

theorem foldl_processFloor_patients (o : GenOracle) (l : List Nat) (acc : GenAcc) :
    ((l.foldl (processFloor o) acc).patients).map patientKey
      = acc.patients.map patientKey ++ l.flatMap (fun f => (List.range 20).filterMap fun j =>
          if bedStatusAt o f j = .occupied
          then some (patientIdOf f j, some (bedIdOf f j)) else none) := by
  induction l generalizing acc with
  | nil => simp
  | cons f l ih =>
      rw [List.foldl_cons, ih, List.flatMap_cons]
      unfold processFloor
      rw [foldl_processBed_patients]
      simp

theorem generate_beds (o : GenOracle) :
    (generateHospitalData o).beds
      = (List.range 4).flatMap (fun f => (List.range 20).map (bedAt o f)) := by
  show ((List.range 4).foldl (processFloor o) ⟨[], [], initialStaff o⟩).beds
      = (List.range 4).flatMap fun f => (List.range 20).map (bedAt o f)
  rw [foldl_processFloor_beds]
  rfl

theorem generate_patients_map (o : GenOracle) :
    (generateHospitalData o).patients.map patientKey
      = (List.range 4).flatMap (fun f => (List.range 20).filterMap fun j =>
          if bedStatusAt o f j = .occupied
          then some (patientIdOf f j, some (bedIdOf f j)) else none) := by
  show (((List.range 4).foldl (processFloor o) ⟨[], [], initialStaff o⟩).patients).map patientKey
      = (List.range 4).flatMap fun f => (List.range 20).filterMap fun j =>
          if bedStatusAt o f j = .occupied
          then some (patientIdOf f j, some (bedIdOf f j)) else none
  rw [foldl_processFloor_patients]
  rfl

/-! ### Sublist helpers for id distinctness -/

theorem filterMap_if_sublist {α β : Type} (l : List α) (c : α → Prop) [DecidablePred c]
    (g : α → β) :
    (l.filterMap fun a => if c a then some (g a) else none).Sublist (l.map g) := by
  induction l with
  | nil => simp
  | cons a l ih =>
      rw [List.filterMap_cons, List.map_cons]
      by_cases hc : c a
      · simp only [hc, if_true]
        exact ih.cons₂ _
      · simp only [hc, if_false]
        exact ih.cons _

theorem flatMap_sublist {α β : Type} (l : List α) (g k : α → List β)
    (H : ∀ a, (g a).Sublist (k a)) :
    (l.flatMap g).Sublist (l.flatMap k) := by
  induction l with
  | nil => simp
  | cons a l ih =>
      rw [List.flatMap_cons, List.flatMap_cons]
      exact (H a).append ih

/-! ### C1: the occupied-bed ↔ patient bijection -/

/-- Every occupied bed's `patientId` names a patient whose `bedId` points
back at the bed. -/
def occupiedBedsHavePatients (h : Hospital) : Prop :=
  ∀ b ∈ h.beds, b.status = .occupied →
    ∃ p ∈ h.patients, b.patientId = some p.id ∧ p.bedId = some b.id

/-- Every patient's `bedId` names an occupied bed whose `patientId` is that
patient's id. -/
def patientsOccupyBeds (h : Hospital) : Prop :=
  ∀ p ∈ h.patients, ∃ b ∈ h.beds,
    p.bedId = some b.id ∧ b.status = .occupied ∧ b.patientId = some p.id

/-- No available or cleaning bed carries a `patientId`. -/
def nonOccupiedBedsUnassigned (h : Hospital) : Prop :=
  ∀ b ∈ h.beds, b.status ≠ .occupied → b.patientId = none

/-- C1 — For every Hospital produced by `generateHospitalData` (any sequence
of random draws): every occupied bed has a non-null `patientId` naming a
patient of the same Hospital whose `bedId` equals that bed's id; every
patient's `bedId` names an occupied bed whose `patientId` is that patient's
id; no available or cleaning bed carries a `patientId`; and bed ids and
patient ids are pairwise distinct, so the correspondence is a bijection
between occupied beds and patients. -/
theorem claim_generator_bijection (o : GenOracle) :
    occupiedBedsHavePatients (generateHospitalData o) ∧
    patientsOccupyBeds (generateHospitalData o) ∧
    nonOccupiedBedsUnassigned (generateHospitalData o) ∧
    ((generateHospitalData o).beds.map Bed.id).Nodup ∧
    ((generateHospitalData o).patients.map Patient.id).Nodup := by
  refine ⟨?_, ?_, ?_, ?_, ?_⟩
  · -- occupied beds have patients
    intro b hb hocc
    rw [generate_beds] at hb
    simp only [List.mem_flatMap, List.mem_map, List.mem_range] at hb
    obtain ⟨f, hf, j, hj, rfl⟩ := hb
    have hoccj : bedStatusAt o f j = .occupied := hocc
    have hkey : (patientIdOf f j, some (bedIdOf f j))
        ∈ (generateHospitalData o).patients.map patientKey := by
      rw [generate_patients_map]
      simp only [List.mem_flatMap, List.mem_filterMap, List.mem_range]
      exact ⟨f, hf, j, hj, by simp [hoccj]⟩
    rw [List.mem_map] at hkey
    obtain ⟨p, hp, hpk⟩ := hkey
    obtain ⟨hid, hbed⟩ := Prod.mk.injEq .. ▸ hpk
    refine ⟨p, hp, ?_, ?_⟩
    · show (bedAt o f j).patientId = some p.id
      simp [bedAt, hoccj, hid]
    · show p.bedId = some (bedAt o f j).id
      simpa [bedAt, bedIdOf] using hbed
  · -- patients occupy beds
    intro p hp
    have hkey : patientKey p ∈ (generateHospitalData o).patients.map patientKey :=
      List.mem_map_of_mem _ hp
    rw [generate_patients_map] at hkey
    simp only [List.mem_flatMap, List.mem_filterMap, List.mem_range] at hkey
    obtain ⟨f, hf, j, hj, hif⟩ := hkey
    by_cases hoccj : bedStatusAt o f j = .occupied
    · rw [if_pos hoccj] at hif
      have hpair := Option.some.inj hif
      have hid : p.id = patientIdOf f j := by
        have := congrArg Prod.fst hpair
        simpa [patientKey] using this.symm
      have hbedid : p.bedId = some (bedIdOf f j) := by
        have := congrArg Prod.snd hpair
        simpa [patientKey] using this.symm
      refine ⟨bedAt o f j, ?_, ?_, hoccj, ?_⟩
      · rw [generate_beds]
        simp only [List.mem_flatMap, List.mem_map, List.mem_range]
        exact ⟨f, hf, j, hj, rfl⟩
      · simpa [bedAt] using hbedid
      · show (bedAt o f j).patientId = some p.id
        simp [bedAt, hoccj, hid]
    · rw [if_neg hoccj] at hif
      exact absurd hif (by simp)
  · -- non-occupied beds are unassigned
    intro b hb hne
    rw [generate_beds] at hb
    simp only [List.mem_flatMap, List.mem_map, List.mem_range] at hb
    obtain ⟨f, hf, j, hj, rfl⟩ := hb
    have hnej : bedStatusAt o f j ≠ .occupied := hne
    simp [bedAt, hnej]
  · -- bed ids are pairwise distinct
    rw [generate_beds, List.map_flatMap]
    have : (fun f => List.map Bed.id (List.map (bedAt o f) (List.range 20)))
        = (fun f => List.map (bedIdOf f) (List.range 20)) := by
      funext f
      rw [List.map_map]
      rfl
    rw [this]
    decide
  · -- patient ids are pairwise distinct
    have hids : (generateHospitalData o).patients.map Patient.id
        = ((generateHospitalData o).patients.map patientKey).map Prod.fst := by
      rw [List.map_map]
      rfl
    rw [hids, generate_patients_map, List.map_flatMap]
    have hcomp : (fun f => List.map Prod.fst ((List.range 20).filterMap fun j =>
          if bedStatusAt o f j = .occupied
          then some (patientIdOf f j, some (bedIdOf f j)) else none))
        = (fun f => (List.range 20).filterMap fun j =>
            if bedStatusAt o f j = .occupied then some (patientIdOf f j) else none) := by
      funext f
      rw [List.map_filterMap]
      congr 1
      funext j
      by_cases hc : bedStatusAt o f j = .occupied <;> simp [hc]
    rw [hcomp]
    exact List.Nodup.sublist
      (flatMap_sublist (List.range 4) _ _ fun f =>
        filterMap_if_sublist (List.range 20) (fun j => bedStatusAt o f j = .occupied)
          (patientIdOf f))
      (by decide)

/-- Witness for C1 at a concrete input: the bijection instantiated at the
all-zero oracle (every draw 0, identity shuffle). -/
theorem claim_generator_bijection_witness :
    occupiedBedsHavePatients (generateHospitalData constOracle) ∧
    patientsOccupyBeds (generateHospitalData constOracle) ∧
    nonOccupiedBedsUnassigned (generateHospitalData constOracle) ∧
    ((generateHospitalData constOracle).beds.map Bed.id).Nodup ∧
    ((generateHospitalData constOracle).patients.map Patient.id).Nodup :=
  claim_generator_bijection constOracle

/-! ### C5: `patientId` present iff occupied, under status updates -/

/-- A bed's optional `patientId` is present iff the bed's status is
occupied. -/
def bedPatientIffInv (h : Hospital) : Prop :=
  ∀ b ∈ h.beds, (b.patientId ≠ none ↔ b.status = .occupied)

instance (h : Hospital) : Decidable (bedPatientIffInv h) := by
  unfold bedPatientIffInv
  infer_instance

/-- A sequence of `updatePatientStatus` calls. -/
def applyPatientUpdates (h : Hospital) (us : List (String × PatientStatus)) : Hospital :=
  us.foldl (fun acc u => updatePatientStatus acc u.1 u.2) h

theorem applyPatientUpdates_beds (h : Hospital) (us : List (String × PatientStatus)) :
    (applyPatientUpdates h us).beds = h.beds := by
  induction us generalizing h with
  | nil => rfl
  | cons u us ih => exact ih (updatePatientStatus h u.1 u.2)

/-- Counterexample to C5 as stated: the state reached from the all-zero-draw
generated Hospital by the single call `updateBedStatus h "bed-0-0" cleaning`
is reachable via the update functions, yet bed `bed-0-0` now has status
`cleaning` while still carrying its `patientId` — `updateBedStatus` never
clears the back-reference. -/
theorem claim_bed_patient_iff_counterexample :
    ¬ bedPatientIffInv
        (updateBedStatus (generateHospitalData constOracle) "bed-0-0" .cleaning) := by
  decide

/-- C5 amended — A bed's `patientId` is present iff its status is occupied in
every generated Hospital, and the invariant is preserved by arbitrary
sequences of `updatePatientStatus` calls (which never touch beds); it is not
preserved by `updateBedStatus`, which changes a bed's status while leaving
its `patientId` untouched. -/
theorem claim_bed_patient_iff_amended (o : GenOracle)
    (us : List (String × PatientStatus)) :
    bedPatientIffInv (applyPatientUpdates (generateHospitalData o) us) := by
  unfold bedPatientIffInv
  rw [applyPatientUpdates_beds]
  intro b hb
  rw [generate_beds] at hb
  simp only [List.mem_flatMap, List.mem_map, List.mem_range] at hb
  obtain ⟨f, hf, j, hj, rfl⟩ := hb
  by_cases hocc : bedStatusAt o f j = .occupied <;>
    simp [bedAt, hocc]

/-- Witness for C5 (amended) at a concrete input: the invariant holds for the
all-zero oracle after an explicit patient-status update. -/
theorem claim_bed_patient_iff_amended_witness :
    bedPatientIffInv
      (applyPatientUpdates (generateHospitalData constOracle)
        [("patient-0-0", .discharged)]) :=
  claim_bed_patient_iff_amended constOracle [("patient-0-0", .discharged)]

end HospitalIsoVista
